import Mathlib

/-!
# Verification of the leanprompt core against its specification

Shallow embedding of the `leanprompt` package (`leanprompt/core.py`,
`leanprompt/guard.py`, `leanprompt/providers/{openai,ollama,google}.py`).
Pure string manipulation is embedded over `List Char` with structural
recursion so that every definition evaluates inside the kernel; the
FastAPI/httpx transport layers are represented by explicit request /
response values, and the upstream LLM by response oracles.
-/

deriving instance DecidableEq for Except

namespace LeanpromptSpec

/-! ## Python string primitives

Executable models of the Python `str` operations used by `core.py`:
`str.strip()`, `str.rstrip("/")`, `str.startswith`, `str.split(sep, 2)`.
-/

/-- Characters removed by Python's `str.strip()`: the full CPython whitespace
set (`Py_UNICODE_ISSPACE`), i.e. U+0009-U+000D, U+001C-U+001F, U+0020,
U+0085, U+00A0, U+1680, U+2000-U+200A, U+2028, U+2029, U+202F, U+205F and
U+3000. -/
def pyIsSpace (c : Char) : Bool :=
  (0x09 ≤ c.toNat && c.toNat ≤ 0x0d) || (0x1c ≤ c.toNat && c.toNat ≤ 0x20)
    || c.toNat == 0x85 || c.toNat == 0xa0 || c.toNat == 0x1680
    || (0x2000 ≤ c.toNat && c.toNat ≤ 0x200a) || c.toNat == 0x2028
    || c.toNat == 0x2029 || c.toNat == 0x202f || c.toNat == 0x205f
    || c.toNat == 0x3000

/-- `str.strip()` on a character list. -/
def chStrip (s : List Char) : List Char :=
  ((s.dropWhile pyIsSpace).reverse.dropWhile pyIsSpace).reverse

/-- Python `s.strip()`. -/
def pyStrip (s : String) : String :=
  ⟨chStrip s.data⟩

/-- Python `s.rstrip("/")`. -/
def pyRstripSlash (s : String) : String :=
  ⟨(s.data.reverse.dropWhile (fun c => c == '/')).reverse⟩

/-- Python `s.startswith(p)`. -/
def pyStartsWith (p s : String) : Bool :=
  p.data.isPrefixOf s.data

/-- Leftmost non-overlapping split of a character list on the three-character
delimiter `---`, as performed by Python's `str.split("---")`. -/
def splitDashes : List Char → List (List Char)
  | '-' :: '-' :: '-' :: rest => [] :: splitDashes rest
  | c :: rest =>
    match splitDashes rest with
    | [] => [[c]]
    | g :: gs => (c :: g) :: gs
  | [] => [[]]

/-- Re-join character-list pieces with the `---` delimiter. -/
def joinDashes : List (List Char) → List Char
  | [] => []
  | [g] => g
  | g :: gs => g ++ ('-' :: '-' :: '-' :: joinDashes gs)

/-- Python `content.split("---", 2)`: split at the first two occurrences of the
delimiter, keeping the remainder (with any later delimiters) as the last part. -/
def pySplitDashes2 (s : String) : List String :=
  match splitDashes s.data with
  | [] => [s]
  | [a] => [⟨a⟩]
  | [a, b] => [⟨a⟩, ⟨b⟩]
  | a :: b :: rest => [⟨a⟩, ⟨b⟩, ⟨joinDashes rest⟩]

/-! ## Route-path normalization (`core.py`)

`LeanPrompt._normalize_route_path`, `_normalize_prefix` and `_apply_prefix`.
The Python method names end in reserved words of this development's linter,
so `_apply_prefix` is rendered `applyApiPfx` and `_normalize_prefix` is
rendered `normalizeApiPfx`; the bodies are line-by-line translations.
-/

/-- `LeanPrompt._normalize_route_path` (core.py lines 77-86). -/
def normRoutePath (path : String) : String :=
  let n := pyStrip path
  if n = "" then "/"
  else
    let n2 := if pyStartsWith "/" n then n else "/" ++ n
    if n2 = "/" then n2 else pyRstripSlash n2

/-- `LeanPrompt._normalize_prefix` (core.py lines 88-94). -/
def normalizeApiPfx (p : String) : String :=
  let n := pyStrip p
  if n = "" then ""
  else
    let m := normRoutePath n
    if m = "/" then "" else m

/-- `LeanPrompt._apply_prefix` (core.py lines 101-107); the first argument is
the instance's `self.api_prefix`. -/
def applyApiPfx (P path : String) : String :=
  let n := normRoutePath path
  if P = "" then n
  else if n = P || pyStartsWith (P ++ "/") n then n
  else P ++ n

/-! ## JSON values

A JSON value as produced by Python's `json.loads` / consumed by `json.dumps`.
Dictionary access mirrors Python semantics: `d[k]` raises `KeyError` on a
missing key and `TypeError`/`AttributeError` on non-dict values (both modelled
as `none`), while `d.get(k, default)` substitutes the default for a missing
key but still raises on a non-dict receiver.  Indexing a non-list is treated
as an error (Python string indexing is not modelled; no theorem exercises it). -/
inductive Json where
  | null : Json
  | bool (b : Bool) : Json
  | num (n : Int) : Json
  | str (s : String) : Json
  | arr (xs : List Json) : Json
  | obj (fields : List (String × Json)) : Json

/-- First binding of a key in a JSON object's field list. -/
def jlookup : List (String × Json) → String → Option Json
  | [], _ => none
  | (k, v) :: rest, key => if k = key then some v else jlookup rest key

/-- Python `d[k]`: `none` models the raised `KeyError`/`TypeError`. -/
def Json.item? : Json → String → Option Json
  | .obj fields, k => jlookup fields k
  | _, _ => none

/-- Python `d.get(k, default)`: `none` models the `AttributeError` raised when
the receiver is not a dict. -/
def Json.pyGetD : Json → String → Json → Option Json
  | .obj fields, k, d => some ((jlookup fields k).getD d)
  | _, _, _ => none

/-- Python `xs[i]` on a list: `none` models `IndexError`/`TypeError`. -/
def Json.idx? : Json → Nat → Option Json
  | .arr xs, i => xs.get? i
  | _, _ => none

/-- Python truthiness of a JSON value. -/
def Json.truthy : Json → Bool
  | .null => false
  | .bool b => b
  | .num n => n != 0
  | .str s => s != ""
  | .arr xs => !xs.isEmpty
  | .obj fields => !fields.isEmpty

/-- The payload of a JSON string value. -/
def Json.asString? : Json → Option String
  | .str s => some s
  | _ => none

/-! ## Conversation turns -/

/-- One entry of a conversation history: `{"role": ..., "content": ...}`. -/
structure Turn where
  role : String
  content : String
  deriving DecidableEq

/-- The user/assistant pair appended after an exchange. -/
def exchangePair (userContent assistantContent : String) : List Turn :=
  [⟨"user", userContent⟩, ⟨"assistant", assistantContent⟩]

/-! ## Prompt loader (`LeanPrompt._load_prompt`, core.py lines 159-174)

The file system read is represented by passing the file's content directly;
the external YAML library (`yaml.safe_load`) is a parameter `yload`, with
`yamlSafeLoadModel` below as a concrete executable model of it. -/

/-- Result of parsing a front-matter header with the external YAML library. -/
inductive Yaml where
  | null : Yaml
  | scalar (s : String) : Yaml
  | mapping (kvs : List (String × String)) : Yaml
  deriving DecidableEq

/-- Model of the external YAML library's `yaml.safe_load`, restricted to the
simple documents relevant here: an empty/whitespace-only document parses to
`null`, a document whose nonblank lines all have the shape `key: value`
parses to the corresponding mapping, and any other document is treated as a
plain scalar (its trimmed text).  Documents on which the real library raises
are outside the scope of the claims checked against this model. -/
def yamlSafeLoadModel (s : String) : Yaml :=
  let lines := (s.data.splitOnP (fun c => c == '\n')).filter (fun l => chStrip l ≠ [])
  if lines = [] then .null
  else if lines.all (fun l => l.contains ':') then
    .mapping (lines.map (fun l =>
      (⟨chStrip (l.takeWhile (fun c => c ≠ ':'))⟩,
       ⟨chStrip ((l.dropWhile (fun c => c ≠ ':')).drop 1)⟩)))
  else .scalar (pyStrip s)

/-- `LeanPrompt._load_prompt` (core.py lines 159-174), applied to the content
of an existing prompt file: front-matter splitting and body trimming.  The
file-not-found branch is not modelled (the claims only concern existing
files). -/
def loadPrompt (yload : String → Yaml) (content : String) : Yaml × String :=
  if pyStartsWith "---" content then
    match pySplitDashes2 content with
    | [_, fm, body] => (yload fm, pyStrip body)
    | _ => (Yaml.mapping [], pyStrip content)
  else (Yaml.mapping [], pyStrip content)

/-! ## Route orchestrator (`LeanPrompt.route`'s `wrapper`, core.py lines 319-414)

The FastAPI request is represented by its content-type header value and the
result of `await request.json()` (`none` = the body failed to parse as JSON).
The provider is a response oracle `provider : Nat → String` giving the text
returned by the k-th `self.provider.generate` call of the request; the calls
actually issued, with the `user_input` and `history` arguments they were
given, are accumulated in a trace.  The validator (`Guard.parse_and_validate`
for a declared output model, or a custom validator function) is a parameter
returning either a validated value or the validation error's message.  The
`while True:` loop is run on explicit fuel: a `none` result means the loop
was still running after `fuel` iterations. -/

/-- The instance's `on_validation_error` setting. -/
inductive VPolicy where
  | ignore : VPolicy
  | raise : VPolicy
  | retry : VPolicy
  deriving DecidableEq

/-- How a request ends: an `HTTPException` (400-equivalent client error, the
500-equivalent validation failure of the `raise` policy) or the unhandled
`AttributeError` escaping `body.get("message")` on a non-dict JSON body. -/
inductive HErr where
  | client (detail : String) : HErr
  | attrError : HErr
  | validation (detail : String) : HErr
  deriving DecidableEq

/-- A successful return value: raw response text (also the empty result `""`)
or a validated value. -/
inductive RouteRet (α : Type) where
  | text (s : String) : RouteRet α
  | validated (v : α) : RouteRet α
  deriving DecidableEq

/-- One issued provider call: the `user_input` and `history` arguments of
`self.provider.generate` (core.py lines 355-360). -/
structure ProviderCall where
  input : String
  history : List Turn
  deriving DecidableEq

/-- The synthesized correction instruction (core.py line 410). -/
def correctionMsg (e : String) : String :=
  "Validation Error: " ++ e ++ ". Please correct your response to match the required schema."

/-- The `while True:` retry loop (core.py lines 353-412), with state
`user_input`, `history`, `retries`, the number of provider calls already made,
and the trace of issued calls. -/
def generateLoop {α : Type} (policy : VPolicy) (maxRetries : Nat)
    (validate : Option (String → Except String α)) (provider : Nat → String) :
    String → List Turn → Nat → Nat → List ProviderCall → Nat →
    Option (Except HErr (RouteRet α) × List ProviderCall)
  | _, _, _, _, _, 0 => none
  | u, h, r, k, tr, fuel + 1 =>
    let sent := if h.isEmpty then u else ""
    let resp := provider k
    let tr' := tr ++ [⟨sent, h⟩]
    match validate with
    | none => some (.ok (.text resp), tr')
    | some V =>
      match V resp with
      | .ok v => some (.ok (.validated v), tr')
      | .error e =>
        match policy with
        | .ignore => some (.ok (.text ""), tr')
        | .raise => some (.error (.validation ("LLM Output Validation Failed: " ++ e)), tr')
        | .retry =>
          if 0 < maxRetries ∧ maxRetries ≤ r then some (.ok (.text ""), tr')
          else
            generateLoop policy maxRetries validate provider (correctionMsg e)
              (h ++ exchangePair u resp) (r + 1) (k + 1) tr' fuel

/-- The retry loop started from its initial state (core.py lines 344-353):
the parsed user input, empty history, zero retries. -/
def runGenerate {α : Type} (policy : VPolicy) (maxRetries : Nat)
    (validate : Option (String → Except String α)) (provider : Nat → String)
    (userInput : String) (fuel : Nat) :
    Option (Except HErr (RouteRet α) × List ProviderCall) :=
  generateLoop policy maxRetries validate provider userInput [] 0 0 [] fuel

/-- The user input actually passed to the retry loop.  Only string `message`
values are modelled beyond their truthiness (a truthy non-string message is
passed through by the Python code unchanged; no claim exercises that case). -/
def jsonToInput : Json → String
  | .str s => s
  | _ => ""

/-- The request handler `wrapper` (core.py lines 320-414) for a route without
an attached auth validator: content-type check, JSON body parsing, `message`
extraction, then the generate/validate/retry loop.  Prompt loading is the
separate `loadPrompt`; the loaded config only affects provider options, which
the response oracle absorbs. -/
def handleRoute {α : Type} (policy : VPolicy) (maxRetries : Nat)
    (validate : Option (String → Except String α)) (provider : Nat → String)
    (contentType : Option String) (body : Option Json) (fuel : Nat) :
    Option (Except HErr (RouteRet α) × List ProviderCall) :=
  if contentType ≠ some "application/json" then
    some (.error (.client "Content-Type must be application/json"), [])
  else
    match body with
    | none => some (.error (.client "Invalid JSON body"), [])
    | some (.obj fields) =>
      match jlookup fields "message" with
      | none => some (.error (.client "Field 'message' is required in JSON body"), [])
      | some v =>
        if v.truthy then
          runGenerate policy maxRetries validate provider (jsonToInput v) fuel
        else
          some (.error (.client "Field 'message' is required in JSON body"), [])
    | some _ => some (.error .attrError, [])

/-! ## Provider adapters

`providers/openai.py`, `providers/ollama.py`, `providers/google.py`.  The
HTTP transport is represented by the upstream's decoded wire data: for
non-streaming calls the JSON response object, for streaming calls the
sequence of transport frames after line/object framing (an SSE line for
OpenAI, a newline-delimited JSON line for Ollama, one object of the streamed
JSON array envelope for Google — the incremental `raw_decode` buffer loop of
`google.py` is modelled at the level of the objects it extracts).  A `none`
result models an uncaught exception escaping the adapter. -/

/-- Python `if chunk: yield chunk` for a JSON-valued chunk: falsy values are
skipped (rendered as the empty fragment), truthy strings are yielded, and a
truthy non-string (which would crash the downstream `+=`/`json` handling) is
an error. -/
def chunkYield? (v : Json) : Option String :=
  if v.truthy then v.asString? else some ""

/-- The message list `[system] + history + [user]` built by the OpenAI and
Ollama adapters (openai.py lines 21-24 and 72-75, ollama.py lines 19-22 and
67-70). -/
def chatMessages (systemPrompt userInput : String) (history : List Turn) : List Turn :=
  ⟨"system", systemPrompt⟩ :: (history ++ [⟨"user", userInput⟩])

/-- `OpenAIProvider.generate`'s extraction
`data["choices"][0]["message"]["content"]` (openai.py line 102); `none` is a
raised `KeyError`/`IndexError`/non-text result. -/
def openaiExtractFull (j : Json) : Option String :=
  ((((j.item? "choices").bind (fun c => c.idx? 0)).bind
    (fun c0 => c0.item? "message")).bind
    (fun m => m.item? "content")).bind Json.asString?

/-- `OpenAIProvider.generate_stream`'s per-frame extraction
`data["choices"][0]["delta"].get("content", "")` (openai.py line 59). -/
def openaiExtractDelta (j : Json) : Option String :=
  (((j.item? "choices").bind (fun c => c.idx? 0)).bind
    (fun c0 => c0.item? "delta")).bind
    (fun d => (d.pyGetD "content" (.str "")).bind chunkYield?)

/-- One line of an OpenAI server-sent-event stream, classified as the code's
line handling does (openai.py lines 52-56): the payload of a `data: ` line
that parsed as JSON, a `data: ` line whose payload failed `json.loads`
(caught and skipped), the `data: [DONE]` sentinel, or a non-`data: ` line. -/
inductive SSEItem where
  | payload (j : Json) : SSEItem
  | malformed : SSEItem
  | doneMark : SSEItem
  | other : SSEItem

/-- The fragments yielded by `OpenAIProvider.generate_stream` over a list of
SSE lines (openai.py lines 52-63). -/
def openaiStreamRun : List SSEItem → Option (List String)
  | [] => some []
  | .other :: rest => openaiStreamRun rest
  | .malformed :: rest => openaiStreamRun rest
  | .doneMark :: _ => some []
  | .payload j :: rest =>
    match openaiExtractDelta j with
    | none => none
    | some c => (openaiStreamRun rest).map (fun cs => if c = "" then cs else c :: cs)

/-- Concatenation of the yielded fragments. -/
def concatAll : List String → String
  | [] => ""
  | c :: cs => c ++ concatAll cs

/-- A well-formed OpenAI streaming delta frame carrying one fragment. -/
def openaiDeltaFrame (c : String) : Json :=
  .obj [("choices", .arr [.obj [("delta", .obj [("content", .str c)])]])]

/-- The streaming wire a deterministic OpenAI-protocol backend sends for the
fragment list `cs`: one delta frame per fragment, then the `[DONE]` sentinel. -/
def openaiStreamWire (cs : List String) : List SSEItem :=
  cs.map (fun c => .payload (openaiDeltaFrame c)) ++ [.doneMark]

/-- The non-streaming response the same backend sends for full text `t`. -/
def openaiFullWire (t : String) : Json :=
  .obj [("choices", .arr [.obj [("message", .obj [("content", .str t)])]])]

/-- `OllamaProvider.generate`'s extraction
`data.get("message", {}).get("content", "")` (ollama.py line 91); note the
defaulting `get` chain, which yields `""` rather than an error when the
nested path is absent. -/
def ollamaExtractFull (j : Json) : Option String :=
  (j.pyGetD "message" (.obj [])).bind
    (fun m => (m.pyGetD "content" (.str "")).bind Json.asString?)

/-- One line of an Ollama newline-delimited JSON stream, as classified by
ollama.py lines 45-58: blank lines are skipped, lines that fail `json.loads`
are skipped, other lines carry a JSON payload. -/
inductive NDLine where
  | payload (j : Json) : NDLine
  | blank : NDLine
  | malformed : NDLine

/-- The fragments yielded by `OllamaProvider.generate_stream` (ollama.py
lines 45-58): stop when a frame's `done` flag is truthy, otherwise yield the
frame's `message.content` when non-empty. -/
def ollamaStreamRun : List NDLine → Option (List String)
  | [] => some []
  | .blank :: rest => ollamaStreamRun rest
  | .malformed :: rest => ollamaStreamRun rest
  | .payload j :: rest =>
    match j.pyGetD "done" .null with
    | none => none
    | some d =>
      if d.truthy then some []
      else
        match (j.pyGetD "message" (.obj [])).bind
            (fun m => (m.pyGetD "content" (.str "")).bind chunkYield?) with
        | none => none
        | some c => (ollamaStreamRun rest).map (fun cs => if c = "" then cs else c :: cs)

/-- A well-formed Ollama streaming frame carrying one fragment. -/
def ollamaChunkFrame (c : String) : Json :=
  .obj [("message", .obj [("content", .str c)])]

/-- The streaming wire a deterministic Ollama backend sends for the fragment
list `cs`: one chunk frame per fragment, then a final `done` frame. -/
def ollamaStreamWire (cs : List String) : List NDLine :=
  cs.map (fun c => .payload (ollamaChunkFrame c)) ++ [.payload (.obj [("done", .bool true)])]

/-- `GoogleProvider.generate`'s extraction
`data["candidates"][0]["content"]["parts"][0]["text"]` (google.py line 142);
`none` is the `KeyError`/`IndexError` turned into the adapter's
`RuntimeError("Unexpected Google API response: ...")` (google.py lines
143-144). -/
def googleExtractFull (j : Json) : Option String :=
  ((((((j.item? "candidates").bind (fun c => c.idx? 0)).bind
    (fun c0 => c0.item? "content")).bind
    (fun ct => ct.item? "parts")).bind
    (fun ps => ps.idx? 0)).bind
    (fun p0 => p0.item? "text")).bind Json.asString?

/-- The fragments yielded for one decoded object of a Google streaming
response (google.py lines 87-96): empty `candidates`/`parts` yield nothing,
otherwise `candidates[0].content.parts[0].text` is yielded when non-empty. -/
def googleChunkTexts (j : Json) : Option (List String) :=
  match j.pyGetD "candidates" (.arr []) with
  | none => none
  | some cands =>
    if !cands.truthy then some []
    else
      match cands.idx? 0 with
      | none => none
      | some c0 =>
        match c0.pyGetD "content" (.obj []) with
        | none => none
        | some content =>
          match content.pyGetD "parts" (.arr []) with
          | none => none
          | some parts =>
            if !parts.truthy then some []
            else
              match parts.idx? 0 with
              | none => none
              | some p0 =>
                match p0.pyGetD "text" (.str "") with
                | none => none
                | some t =>
                  match chunkYield? t with
                  | none => none
                  | some c => some (if c = "" then [] else [c])

/-- The fragments yielded by `GoogleProvider.generate_stream` over the
decoded objects of the streamed array envelope. -/
def googleStreamRun : List Json → Option (List String)
  | [] => some []
  | j :: rest =>
    (googleChunkTexts j).bind (fun ts => (googleStreamRun rest).map (fun cs => ts ++ cs))

/-- A well-formed Google streaming chunk object carrying one fragment. -/
def googleChunkFrame (c : String) : Json :=
  .obj [("candidates", .arr [.obj [("content",
    .obj [("parts", .arr [.obj [("text", .str c)]])])]])]

/-- The streamed objects a deterministic Google backend sends for the
fragment list `cs`. -/
def googleStreamWire (cs : List String) : List Json :=
  cs.map googleChunkFrame

/-- The non-streaming response the same Google backend sends for full text
`t`. -/
def googleFullWire (t : String) : Json :=
  googleChunkFrame t

/-! ## Route registration

`LeanPrompt.route` (core.py lines 291-313) registers
`routes_info[prefixed_path] = prompt_file` where
`prefixed_path = self._apply_prefix(self._normalize_route_path(path))`. -/

/-- The key under which a route declared for `path` is stored in
`routes_info`, for an instance whose normalized prefix is `P`. -/
def routeKey (P path : String) : String :=
  applyApiPfx P (normRoutePath path)

/-! ## WebSocket session endpoint (core.py lines 138-149 and 176-289) -/

/-- Outcome of the configured `ws_auth` hook on a connection, as the code
distinguishes outcomes: returning the literal `False`, returning any other
value (`True`, `None`, `0`, ...), raising `HTTPException`, or raising any
other exception. -/
inductive HookRes where
  | retFalse : HookRes
  | retOther : HookRes
  | raiseHTTP : HookRes
  | raiseOther : HookRes
  deriving DecidableEq

/-- How the websocket handshake ends: proceed to `accept`, closed with the
policy-violation code 1008, or an exception propagating out of the endpoint
uncaught (no 1008 close issued by this code). -/
inductive WsAuth where
  | proceed : WsAuth
  | closed1008 : WsAuth
  | propagated : WsAuth
  deriving DecidableEq

/-- `LeanPrompt._authorize_websocket` (core.py lines 138-149): only
`HTTPException` is caught, and only the literal `False` is treated as a
refusal. -/
def authorizeWebsocket : Option HookRes → WsAuth
  | none => .proceed
  | some .raiseHTTP => .closed1008
  | some .raiseOther => .propagated
  | some .retFalse => .closed1008
  | some .retOther => .proceed

/-- Per-connection `path_history` dictionary: an association list from a
history key to that path's History. -/
abbrev WsState := List (String × List Turn)

/-- Association-list lookup (Python `d.get(k)` / `k in d`). -/
def assocGet {α : Type} : List (String × α) → String → Option α
  | [], _ => none
  | (k, v) :: rest, key => if k = key then some v else assocGet rest key

/-- Association-list update (Python `d[k] = v`), inserting at the end when
the key is new. -/
def assocSet {α : Type} : List (String × α) → String → α → List (String × α)
  | [], key, v => [(key, v)]
  | (k, w) :: rest, key, v =>
    if k = key then (k, v) :: rest else (k, w) :: assocSet rest key v

/-- A frame sent back to the websocket client. -/
inductive WsOut where
  | errFields (path : String) : WsOut
  | errNoRoute (path : String) : WsOut
  | errNoPrompt (promptFile path : String) : WsOut
  | response (text path : String) : WsOut
  deriving DecidableEq

/-- One iteration of the websocket receive loop for a parsed
`{"path": ..., "message": ...}` message (core.py lines 193-286): field
presence check, route lookup under the applied prefix, prompt load, streamed
generation accumulated into one response (`provider` maps system prompt,
user input and history to the accumulated stream), final frame, History
append.  The malformed-JSON receive branch is not modelled. -/
def wsStep (P : String) (routes : List (String × String))
    (prompts : String → Option (Yaml × String))
    (provider : String → String → List Turn → String)
    (st : WsState) (path message : String) : WsState × WsOut :=
  if path = "" || message = "" then (st, .errFields path)
  else
    let key := applyApiPfx P path
    match assocGet routes key with
    | none => (st, .errNoRoute path)
    | some promptFile =>
      match prompts promptFile with
      | none => (st, .errNoPrompt promptFile path)
      | some (_cfg, systemPrompt) =>
        let history := (assocGet st key).getD []
        let full := provider systemPrompt message history
        (assocSet st key (history ++ exchangePair message full), .response full path)

/-- The websocket receive loop over a finite list of incoming messages. -/
def wsLoop (P : String) (routes : List (String × String))
    (prompts : String → Option (Yaml × String))
    (provider : String → String → List Turn → String) :
    WsState → List (String × String) → WsState × List WsOut
  | st, [] => (st, [])
  | st, (p, m) :: rest =>
    let step := wsStep P routes prompts provider st p m
    let tail := wsLoop P routes prompts provider step.1 rest
    (tail.1, step.2 :: tail.2)

/-- A whole websocket session (core.py lines 181-289): authorization, then —
only if authorized — accept and the receive loop from an empty
`path_history`.  A refused or crashed handshake processes no message. -/
def wsSession (hook : Option HookRes) (P : String)
    (routes : List (String × String)) (prompts : String → Option (Yaml × String))
    (provider : String → String → List Turn → String)
    (msgs : List (String × String)) : WsAuth × WsState × List WsOut :=
  match authorizeWebsocket hook with
  | .proceed =>
    let run := wsLoop P routes prompts provider [] msgs
    (.proceed, run.1, run.2)
  | a => (a, [], [])

/-! ## Derived descriptions used by the theorems -/

/-- The `user_input` loop variable before the k-th provider call of the
retry loop when every validation fails: the original input, then the
synthesized correction for the previous failure. -/
def loopInput (u0 : String) (err : String → String) (provider : Nat → String) : Nat → String
  | 0 => u0
  | r + 1 => correctionMsg (err (provider r))

/-- The `user_input` argument actually sent with the k-th provider call
(empty from the second call on, since the history is then non-empty). -/
def expectedInput (u0 : String) : Nat → String
  | 0 => u0
  | _ + 1 => ""

/-- The history sent with the k-th provider call of the retry loop when
every validation fails: empty, then the original exchange, then one
correction-instruction/failed-response pair per further failure.  Note the
correction synthesized after failure `j` first appears in the history of
call `j + 2`. -/
def expectedHistory (u0 : String) (err : String → String) (provider : Nat → String) : Nat → List Turn
  | 0 => []
  | 1 => exchangePair u0 (provider 0)
  | k + 2 =>
    expectedHistory u0 err provider (k + 1)
      ++ exchangePair (correctionMsg (err (provider k))) (provider (k + 1))

/-- The k-th provider call of the always-failing retry loop. -/
def expectedCall (u0 : String) (err : String → String) (provider : Nat → String)
    (k : Nat) : ProviderCall :=
  ⟨expectedInput u0 k, expectedHistory u0 err provider k⟩

/-- Whether a request outcome is an `HTTPException` with a 400 status
(client-input error). -/
def HErr.isClient : HErr → Bool
  | .client _ => true
  | _ => false

/-- Characterization (following the specification's entry requirements, as
amended) of how a request is rejected before any provider call: wrong
content-type, unparseable JSON body, a JSON object body without a truthy
`message`, or — the amendment — a valid-JSON non-object body, which hits an
unhandled `AttributeError` instead of a 400. -/
def entryOutcome (contentType : Option String) (body : Option Json) : Option HErr :=
  if contentType ≠ some "application/json" then
    some (.client "Content-Type must be application/json")
  else
    match body with
    | none => some (.client "Invalid JSON body")
    | some (.obj fields) =>
      match jlookup fields "message" with
      | none => some (.client "Field 'message' is required in JSON body")
      | some v =>
        if v.truthy then none
        else some (.client "Field 'message' is required in JSON body")
    | some _ => some .attrError

/-- A path string containing no whitespace and at least one character other
than `/`.  On such paths normalization is idempotent. -/
def cleanPath (p : String) : Bool :=
  p.data.all (fun c => !pyIsSpace c) && p.data.any (fun c => c != '/')

/-- Normal form of `normRoutePath` on clean paths: starts with `/`, contains
no whitespace, and does not end with `/` (in particular it is not `"/"`
itself and not empty). -/
def normShape (s : String) : Bool :=
  pyStartsWith "/" s && s.data.all (fun c => !pyIsSpace c) &&
    (match s.data.reverse with
     | [] => false
     | c :: _ => c != '/')

/-! # Theorems for the claims -/

/-- C7: with `on_validation_error="raise"`, when the provider output fails
validation the orchestrator issues exactly one provider call and the request
fails with a 500-equivalent `HTTPException` carrying the validation failure
detail; no retry happens. -/
theorem raise_policy_single_call {α : Type} (maxRetries : Nat)
    (validate : String → Except String α) (provider : Nat → String)
    (u0 e : String) (fuel : Nat) (hf : 1 ≤ fuel)
    (hv : validate (provider 0) = .error e) :
    runGenerate .raise maxRetries (some validate) provider u0 fuel
      = some (.error (.validation ("LLM Output Validation Failed: " ++ e)), [⟨u0, []⟩]) := by
  cases fuel with
  | zero => exact absurd hf (by decide)
  | succ f => simp [runGenerate, generateLoop, hv]

/-- Witness for C7 at a concrete invalid response. -/
theorem raise_policy_single_call_witness :
    runGenerate .raise 3 (some fun s => (.error s : Except String String)) (fun _ => "oops") "hi" 5
      = some (.error (.validation "LLM Output Validation Failed: oops"), [⟨"hi", []⟩]) :=
  raise_policy_single_call 3 _ _ "hi" "oops" 5 (by decide) rfl

/-- C8 (amended): a websocket connection whose auth hook returns the literal
`False` or raises an `HTTPException` is closed with code 1008 before the
connection is accepted and before any message is processed (empty history,
no output frame); a hook raising any other exception propagates out of the
endpoint without this code issuing a 1008 close; with no hook, or a hook
returning any value other than `False`, the session proceeds to the receive
loop. -/
theorem ws_auth_close_policy (P : String) (routes : List (String × String))
    (prompts : String → Option (Yaml × String))
    (provider : String → String → List Turn → String)
    (msgs : List (String × String)) :
    wsSession (some .retFalse) P routes prompts provider msgs = (.closed1008, [], [])
    ∧ wsSession (some .raiseHTTP) P routes prompts provider msgs = (.closed1008, [], [])
    ∧ wsSession (some .raiseOther) P routes prompts provider msgs = (.propagated, [], [])
    ∧ wsSession none P routes prompts provider msgs
        = (.proceed, (wsLoop P routes prompts provider [] msgs).1,
            (wsLoop P routes prompts provider [] msgs).2)
    ∧ wsSession (some .retOther) P routes prompts provider msgs
        = (.proceed, (wsLoop P routes prompts provider [] msgs).1,
            (wsLoop P routes prompts provider [] msgs).2) :=
  ⟨rfl, rfl, rfl, rfl, rfl⟩

/-- C8 counterexample: the claim says any exception from the auth hook
closes the connection with code 1008, but only `HTTPException` is caught
(core.py line 143); a hook raising any other exception propagates and no
1008 close is issued. -/
theorem ws_auth_exception_not_closed1008 :
    (wsSession (some .raiseOther) "" [] (fun _ => none) (fun _ _ _ => "") [("/a", "m")]).1
        = .propagated
    ∧ WsAuth.propagated ≠ WsAuth.closed1008 :=
  ⟨rfl, by decide⟩

/-- C9 (amended): on an upstream success response missing the variant's
nested text path, the Google adapter fails (RuntimeError, google.py lines
143-144) and the OpenAI adapter fails (uncaught KeyError, openai.py line
102), but the Ollama adapter silently returns the empty string
(defaulting `get` chain, ollama.py line 91). -/
theorem missing_text_path_behavior (fs gs hs : List (String × Json))
    (hg : jlookup fs "candidates" = none)
    (ho : jlookup gs "choices" = none)
    (hl : jlookup hs "message" = none) :
    googleExtractFull (.obj fs) = none
    ∧ openaiExtractFull (.obj gs) = none
    ∧ ollamaExtractFull (.obj hs) = some "" := by
  refine ⟨?_, ?_, ?_⟩ <;>
    simp [googleExtractFull, openaiExtractFull, ollamaExtractFull, Json.item?,
      Json.pyGetD, Json.asString?, jlookup, hg, ho, hl]

/-- Witness for C9 at the empty response object. -/
theorem missing_text_path_behavior_witness :
    googleExtractFull (.obj []) = none ∧ openaiExtractFull (.obj []) = none
    ∧ ollamaExtractFull (.obj []) = some "" :=
  missing_text_path_behavior [] [] [] rfl rfl rfl

/-- C9 counterexample: the claim says every adapter variant surfaces a
malformed success response as an error, but `OllamaProvider.generate` on a
response object without the `message.content` path succeeds with `""`
instead of failing. -/
theorem ollama_missing_path_silent_empty :
    ollamaExtractFull (.obj [("model", .str "m")]) = some ""
    ∧ (ollamaExtractFull (.obj [("model", .str "m")])).isSome = true :=
  ⟨rfl, rfl⟩

/-- C6 (amended): whenever the entry checks reject a request — content-type
not exactly `application/json`, unparseable JSON body, or a JSON object body
whose `message` field is missing or falsy (400-equivalent client errors), or
— the amendment — a valid-JSON non-object body (an unhandled
`AttributeError`, 500-equivalent) — the handler returns that rejection with
an empty provider-call trace: no provider call is made. -/
theorem entry_rejection_before_provider {α : Type} (policy : VPolicy) (maxRetries : Nat)
    (validate : Option (String → Except String α)) (provider : Nat → String)
    (contentType : Option String) (body : Option Json) (fuel : Nat) (e : HErr)
    (h : entryOutcome contentType body = some e) :
    handleRoute policy maxRetries validate provider contentType body fuel
      = some (.error e, []) := by
  unfold entryOutcome at h
  unfold handleRoute
  by_cases hct : contentType = some "application/json" <;>
    simp only [hct, ne_eq, not_true_eq_false, not_false_eq_true, if_true, if_false,
      ite_true, ite_false] at h ⊢
  · cases body with
    | none => injection h with h2; rw [← h2]
    | some j =>
      cases j with
      | null => injection h with h2; rw [← h2]
      | bool b => injection h with h2; rw [← h2]
      | num n => injection h with h2; rw [← h2]
      | str s => injection h with h2; rw [← h2]
      | arr xs => injection h with h2; rw [← h2]
      | obj fields =>
        dsimp only at h ⊢
        cases hm : jlookup fields "message" with
        | none => rw [hm] at h; injection h with h2; rw [← h2]
        | some v =>
          rw [hm] at h
          by_cases hv : v.truthy = true <;>
            simp only [hv, if_true, if_false, ite_true, ite_false] at h ⊢
          · exact absurd h (by simp)
          · injection h with h2; rw [← h2]; simp
  · injection h with h2; rw [← h2]

/-- Witness for C6: a `text/plain` request is rejected 400 with no provider
call. -/
theorem entry_rejection_before_provider_witness :
    handleRoute (α := String) .retry 2 none (fun _ => "") (some "text/plain")
        (some (.obj [("message", .str "hi")])) 7
      = some (.error (.client "Content-Type must be application/json"), []) :=
  entry_rejection_before_provider .retry 2 none (fun _ => "") (some "text/plain") _ 7 _ (by decide)

/-- C6 counterexample: the claim says a request whose `message` field is
missing gets a 400-equivalent client error, but a valid-JSON non-object body
(here `[1, 2]`, which has no `message` field) raises an unhandled
`AttributeError` at `body.get("message")` (core.py line 334) — a
500-equivalent, not a client-input error (though still with no provider
call). -/
theorem nonobject_body_not_client_error :
    handleRoute (α := String) .ignore 3 none (fun _ => "")
        (some "application/json") (some (.arr [.num 1, .num 2])) 1
      = some (.error .attrError, [])
    ∧ HErr.attrError.isClient = false :=
  ⟨rfl, rfl⟩

/-- C3 (amended): for every prompt file content, if the content begins with
the `---` delimiter and a second delimiter occurrence exists (the split has
three parts), `load` returns whatever the YAML library parses the header to
(for a well-formed mapping header, exactly the declared keys) together with
the whitespace-trimmed remainder after the second delimiter; if the content
does not begin with the delimiter, or no second delimiter occurrence exists,
`load` returns an empty config and the full trimmed content as body. -/
theorem load_prompt_split_behavior (yload : String → Yaml) (content : String) :
    (∀ a b c, pySplitDashes2 content = [a, b, c] → pyStartsWith "---" content = true →
      loadPrompt yload content = (yload b, pyStrip c))
    ∧ (∀ a b, pySplitDashes2 content = [a, b] →
      loadPrompt yload content = (.mapping [], pyStrip content))
    ∧ (∀ a, pySplitDashes2 content = [a] →
      loadPrompt yload content = (.mapping [], pyStrip content))
    ∧ (pyStartsWith "---" content = false →
      loadPrompt yload content = (.mapping [], pyStrip content)) := by
  refine ⟨?_, ?_, ?_, ?_⟩
  · intro a b c h hs; simp [loadPrompt, hs, h]
  · intro a b h
    by_cases hs : pyStartsWith "---" content = true <;> simp [loadPrompt, hs, h]
  · intro a h
    by_cases hs : pyStartsWith "---" content = true <;> simp [loadPrompt, hs, h]
  · intro hs; simp [loadPrompt, hs]

/-- Witness for C3: a well-formed `model: m` header yields exactly the
declared key and the trimmed body. -/
theorem load_prompt_split_behavior_witness :
    loadPrompt yamlSafeLoadModel "---\nmodel: m\n---\n hi " = (.mapping [("model", "m")], "hi") := by
  have h := (load_prompt_split_behavior yamlSafeLoadModel "---\nmodel: m\n---\n hi ").1
      "" "\nmodel: m\n" "\n hi " (by decide) (by decide)
  rw [h]; decide

/-- C3 counterexample: the claim says a malformed (non-mapping) header gives
an empty config with the full trimmed content as body, but for a scalar
header document the code returns the scalar as the config and only the
post-delimiter remainder as body (core.py lines 168-173). -/
theorem load_prompt_scalar_header_not_empty_config :
    loadPrompt yamlSafeLoadModel "---\nhello\n---\nbody" = (.scalar "hello", "body")
    ∧ Yaml.scalar "hello" ≠ .mapping []
    ∧ ("body" : String) ≠ pyStrip "---\nhello\n---\nbody" :=
  ⟨by decide, by decide, by decide⟩

/-- The fragments actually yielded: streaming skips empty fragments
(`if chunk: yield chunk`). -/
def nonEmpties : List String → List String
  | [] => []
  | c :: cs => if c = "" then nonEmpties cs else c :: nonEmpties cs

lemma empty_str_append (s : String) : "" ++ s = s := by
  cases s; rfl

lemma openaiExtractDelta_frame (c : String) :
    openaiExtractDelta (openaiDeltaFrame c) = some c := by
  by_cases hc : c = "" <;>
    simp [openaiExtractDelta, openaiDeltaFrame, Json.item?, Json.idx?, Json.pyGetD,
      jlookup, chunkYield?, Json.truthy, Json.asString?, hc]

lemma openaiStreamRun_wire (cs : List String) :
    openaiStreamRun (openaiStreamWire cs) = some (nonEmpties cs) := by
  induction cs with
  | nil => rfl
  | cons c cs ih =>
    rw [show openaiStreamWire (c :: cs)
        = .payload (openaiDeltaFrame c) :: openaiStreamWire cs from rfl]
    by_cases hc : c = "" <;>
      simp [openaiStreamRun, openaiExtractDelta_frame, ih, nonEmpties, hc]

lemma concatAll_nonEmpties (cs : List String) :
    concatAll (nonEmpties cs) = concatAll cs := by
  induction cs with
  | nil => rfl
  | cons c cs ih =>
    by_cases hc : c = "" <;>
      simp [nonEmpties, hc, concatAll, ih, empty_str_append]

lemma ollamaStreamRun_wire (cs : List String) :
    ollamaStreamRun (ollamaStreamWire cs) = some (nonEmpties cs) := by
  induction cs with
  | nil => rfl
  | cons c cs ih =>
    rw [show ollamaStreamWire (c :: cs)
        = .payload (ollamaChunkFrame c) :: ollamaStreamWire cs from rfl]
    by_cases hc : c = "" <;>
      simp [ollamaStreamRun, ollamaChunkFrame, Json.pyGetD, jlookup,
        chunkYield?, Json.truthy, Json.asString?, ih, nonEmpties, hc]

lemma googleChunkTexts_frame (c : String) :
    googleChunkTexts (googleChunkFrame c) = some (if c = "" then [] else [c]) := by
  by_cases hc : c = "" <;>
    simp [googleChunkTexts, googleChunkFrame, Json.pyGetD, Json.idx?, jlookup,
      chunkYield?, Json.truthy, Json.asString?, hc]

lemma googleStreamRun_wire (cs : List String) :
    googleStreamRun (googleStreamWire cs) = some (nonEmpties cs) := by
  induction cs with
  | nil => rfl
  | cons c cs ih =>
    rw [show googleStreamWire (c :: cs)
        = googleChunkFrame c :: googleStreamWire cs from rfl]
    by_cases hc : c = "" <;>
      simp [googleStreamRun, googleChunkTexts_frame, ih, nonEmpties, hc]

/-- C4: for each adapter variant and a deterministic backend sending
equivalent wire responses to both calls (the streamed fragments concatenate
to the non-streaming text), the concatenation of all fragments yielded by
`generate_stream` equals the text returned by `generate`. -/
theorem stream_concat_eq_generate (cs : List String) :
    (openaiStreamRun (openaiStreamWire cs)).map concatAll
      = openaiExtractFull (openaiFullWire (concatAll cs))
    ∧ (ollamaStreamRun (ollamaStreamWire cs)).map concatAll
      = ollamaExtractFull (ollamaChunkFrame (concatAll cs))
    ∧ (googleStreamRun (googleStreamWire cs)).map concatAll
      = googleExtractFull (googleFullWire (concatAll cs)) := by
  refine ⟨?_, ?_, ?_⟩ <;>
    simp [openaiStreamRun_wire, ollamaStreamRun_wire, googleStreamRun_wire,
      concatAll_nonEmpties, openaiExtractFull, ollamaExtractFull, googleExtractFull,
      openaiFullWire, ollamaChunkFrame, googleFullWire, googleChunkFrame,
      Json.item?, Json.idx?, Json.pyGetD, jlookup, Json.asString?]

/-- The calls issued from the r-th call onward when `d` more retries remain
before exhaustion. -/
def expectedTail (u0 : String) (err : String → String) (provider : Nat → String)
    (r : Nat) : Nat → List ProviderCall
  | 0 => [expectedCall u0 err provider r]
  | d + 1 => expectedCall u0 err provider r :: expectedTail u0 err provider (r + 1) d

lemma expectedTail_length (u0 : String) (err : String → String) (provider : Nat → String) :
    ∀ d r, (expectedTail u0 err provider r d).length = d + 1 := by
  intro d
  induction d with
  | zero => intro r; rfl
  | succ d ih => intro r; simp [expectedTail, ih (r + 1)]

lemma expectedHistory_succ_ne_nil (u0 : String) (err : String → String)
    (provider : Nat → String) (r : Nat) :
    (expectedHistory u0 err provider (r + 1)).isEmpty = false := by
  cases r with
  | zero => rfl
  | succ s => simp [expectedHistory, exchangePair]

lemma expectedHistory_step (u0 : String) (err : String → String)
    (provider : Nat → String) (r : Nat) :
    expectedHistory u0 err provider r
        ++ exchangePair (loopInput u0 err provider r) (provider r)
      = expectedHistory u0 err provider (r + 1) := by
  cases r with
  | zero => simp [expectedHistory, loopInput]
  | succ s => rfl

/-- Under the `retry` policy with an always-failing validator and
`max_retries = m > 0`, the loop started at retry count `r` issues the calls
`expectedTail r (m - r)` and returns the empty result. -/
lemma generateLoop_retry_spec {α : Type} (m : Nat) (hm : 0 < m)
    (err : String → String) (provider : Nat → String) (u0 : String) :
    ∀ (d r : Nat) (tr : List ProviderCall) (fuel : Nat), r + d = m → d + 1 ≤ fuel →
      generateLoop (α := α) .retry m (some (fun s => .error (err s))) provider
          (loopInput u0 err provider r) (expectedHistory u0 err provider r) r r tr fuel
        = some (.ok (.text ""), tr ++ expectedTail u0 err provider r d) := by
  intro d
  induction d with
  | zero =>
    intro r tr fuel hr hf
    obtain ⟨f, rfl⟩ : ∃ f, fuel = f + 1 := ⟨fuel - 1, by omega⟩
    obtain ⟨s, rfl⟩ : ∃ s, r = s + 1 := ⟨r - 1, by omega⟩
    have hne := expectedHistory_succ_ne_nil u0 err provider s
    have hcond : 0 < m ∧ m ≤ s + 1 := by omega
    simp [generateLoop, hne, hcond, expectedTail, expectedCall, expectedInput]
  | succ d ih =>
    intro r tr fuel hr hf
    obtain ⟨f, rfl⟩ : ∃ f, fuel = f + 1 := ⟨fuel - 1, by omega⟩
    have hcond : ¬(0 < m ∧ m ≤ r) := by omega
    have hsent : (if (expectedHistory u0 err provider r).isEmpty then
        loopInput u0 err provider r else "") = expectedInput u0 r := by
      cases r with
      | zero => rfl
      | succ s => simp [expectedHistory_succ_ne_nil, expectedInput]
    simp only [generateLoop, hsent]
    rw [if_neg hcond]
    rw [expectedHistory_step]
    have ihh := ih (r + 1) (tr ++ [⟨expectedInput u0 r, expectedHistory u0 err provider r⟩])
      f (by omega) (by omega)
    rw [show loopInput u0 err provider (r + 1)
        = correctionMsg (err (provider r)) from rfl] at ihh
    rw [ihh]
    simp [expectedTail, expectedCall]

/-- With `max_retries = 0` the retry loop never terminates: it is still
running after any amount of fuel. -/
lemma generateLoop_retry_zero_unbounded {α : Type} (err : String → String)
    (provider : Nat → String) :
    ∀ (fuel : Nat) (u : String) (h : List Turn) (r k : Nat) (tr : List ProviderCall),
      generateLoop (α := α) .retry 0 (some (fun s => .error (err s))) provider u h r k tr fuel
        = none := by
  intro fuel
  induction fuel with
  | zero => intros; rfl
  | succ f ih => intro u h r k tr; simp [generateLoop, ih]

/-- C1: with `on_validation_error="retry"` and `max_retries = n > 0`, if the
provider output fails validation on every attempt the handler issues exactly
`n + 1` provider calls (1 initial + n retries) and returns the empty result;
with `max_retries = 0` the retry loop is unbounded (still running under any
fuel). -/
theorem retry_policy_call_count {α : Type} (err : String → String)
    (provider : Nat → String) (u0 : String) (n fuel : Nat)
    (hn : 0 < n) (hf : n + 1 ≤ fuel) :
    (∃ tr, runGenerate (α := α) .retry n (some (fun s => .error (err s))) provider u0 fuel
        = some (.ok (.text ""), tr) ∧ tr.length = n + 1)
    ∧ (∀ f, runGenerate (α := α) .retry 0 (some (fun s => .error (err s))) provider u0 f
        = none) := by
  constructor
  · refine ⟨expectedTail u0 err provider 0 n, ?_, expectedTail_length u0 err provider n 0⟩
    have h := generateLoop_retry_spec (α := α) n hn err provider u0 n 0 [] fuel (by omega) hf
    simpa [runGenerate, loopInput, expectedHistory] using h
  · intro f
    exact generateLoop_retry_zero_unbounded err provider f u0 [] 0 0 []

/-- Witness for C1 at `max_retries = 2`: exactly 3 provider calls. -/
theorem retry_policy_call_count_witness :
    (∃ tr, runGenerate (α := String) .retry 2
        (some (fun s => .error ((fun t => t) s))) (fun _ => "bad") "hi" 3
        = some (.ok (.text ""), tr) ∧ tr.length = 3)
    ∧ (∀ f, runGenerate (α := String) .retry 0
        (some (fun s => .error ((fun t => t) s))) (fun _ => "bad") "hi" f = none) :=
  retry_policy_call_count (fun t => t) (fun _ => "bad") "hi" 2 3 (by decide) (by decide)

/-- C2 (amended): the first provider call sends the original user input with
empty history; every subsequent call sends an empty user input with a history
that starts with the original user turn and the first invalid response and
then contains, for each further failure, the correction instruction
synthesized for the previous failure followed by that failure's invalid
response.  In particular the first retry's history holds only the prior
failed exchange with no correction instruction, and the correction
synthesized after failure `k` first appears in the history of call `k + 2` —
never in the call it was synthesized for. -/
theorem retry_call_schedule {α : Type} (err : String → String)
    (provider : Nat → String) (u0 : String) (n fuel : Nat)
    (hn : 0 < n) (hf : n + 1 ≤ fuel) :
    runGenerate (α := α) .retry n (some (fun s => .error (err s))) provider u0 fuel
      = some (.ok (.text ""), expectedTail u0 err provider 0 n)
    ∧ expectedCall u0 err provider 0 = ⟨u0, []⟩
    ∧ (∀ k, expectedCall u0 err provider (k + 1)
        = ⟨"", expectedHistory u0 err provider (k + 1)⟩)
    ∧ expectedHistory u0 err provider 1 = exchangePair u0 (provider 0)
    ∧ (∀ k, expectedHistory u0 err provider (k + 2)
        = expectedHistory u0 err provider (k + 1)
          ++ exchangePair (correctionMsg (err (provider k))) (provider (k + 1)))
    ∧ (∀ r, expectedTail u0 err provider r 0 = [expectedCall u0 err provider r])
    ∧ (∀ r d, expectedTail u0 err provider r (d + 1)
        = expectedCall u0 err provider r :: expectedTail u0 err provider (r + 1) d) := by
  refine ⟨?_, rfl, fun k => rfl, rfl, fun k => rfl, fun r => rfl, fun r d => rfl⟩
  have h := generateLoop_retry_spec (α := α) n hn err provider u0 n 0 [] fuel (by omega) hf
  simpa [runGenerate, loopInput, expectedHistory] using h

/-- Witness for C2's amended schedule at `max_retries = 2`. -/
theorem retry_call_schedule_witness :
    runGenerate (α := String) .retry 2 (some (fun s => .error ((fun t => t) s)))
        (fun _ => "bad") "hi" 3
      = some (.ok (.text ""), expectedTail "hi" (fun t => t) (fun _ => "bad") 0 2) :=
  (retry_call_schedule (fun t => t) (fun _ => "bad") "hi" 2 3 (by decide) (by decide)).1

/-- C2 counterexample: the claim says every call after a validation failure
carries a history containing the prior failed exchange plus a synthesized
correction instruction, but the second provider call's history is exactly
the two turns of the prior failed exchange; every synthesized correction
instruction starts with `"Validation Error: "` and neither entry does. -/
theorem retry_history_first_retry_no_correction :
    (runGenerate (α := String) .retry 2 (some (fun _ => .error "bad type"))
        (fun _ => "invalid!") "hi" 9).map (fun x => x.2.get? 1)
      = some (some ⟨"", [⟨"user", "hi"⟩, ⟨"assistant", "invalid!"⟩]⟩)
    ∧ pyStartsWith "Validation Error: " "hi" = false
    ∧ pyStartsWith "Validation Error: " "invalid!" = false :=
  ⟨by decide, by decide, by decide⟩

/-- Updating a key then reading it back gives the new value. -/
lemma assocGet_set_self {α : Type} (st : List (String × α)) (k : String) (v : α) :
    assocGet (assocSet st k v) k = some v := by
  induction st with
  | nil => simp [assocSet, assocGet]
  | cons p rest ih =>
    obtain ⟨q, w⟩ := p
    by_cases h : q = k <;> simp [assocSet, assocGet, h, ih]

/-- Updating one key leaves every other key's value unchanged. -/
lemma assocGet_set_other {α : Type} (st : List (String × α)) (k q : String) (v : α)
    (hq : q ≠ k) : assocGet (assocSet st k v) q = assocGet st q := by
  induction st with
  | nil => simp [assocSet, assocGet, Ne.symm hq]
  | cons p rest ih =>
    obtain ⟨x, w⟩ := p
    by_cases h : x = k <;> simp [assocSet, assocGet, h, Ne.symm hq, ih]

/-- C5 (amended): after each successfully completed websocket exchange the
session appends exactly one user turn followed by one assistant turn to the
History stored under the key the message's path resolves to, leaving every
other key's History untouched; two messages resolving to the same key yield
a 4-entry History in order (user, assistant, user, assistant); messages
resolving to two distinct keys accumulate in two independent Histories.  The
amendment: "different paths" must be read as paths resolving to distinct
keys — two different path strings that normalize to the same key share one
History. -/
theorem ws_history_pairing (P : String) (routes : List (String × String))
    (prompts : String → Option (Yaml × String))
    (provider : String → String → List Turn → String)
    (p1 m1 p2 m2 f1 f2 : String) (c1 c2 : Yaml) (s1 s2 : String)
    (hp1 : p1 ≠ "") (hm1 : m1 ≠ "") (hp2 : p2 ≠ "") (hm2 : m2 ≠ "")
    (hr1 : assocGet routes (applyApiPfx P p1) = some f1)
    (hr2 : assocGet routes (applyApiPfx P p2) = some f2)
    (hl1 : prompts f1 = some (c1, s1)) (hl2 : prompts f2 = some (c2, s2)) :
    (∀ st : WsState,
      wsStep P routes prompts provider st p1 m1
        = (assocSet st (applyApiPfx P p1)
            (((assocGet st (applyApiPfx P p1)).getD [])
              ++ exchangePair m1
                  (provider s1 m1 ((assocGet st (applyApiPfx P p1)).getD []))),
           .response (provider s1 m1 ((assocGet st (applyApiPfx P p1)).getD [])) p1)
      ∧ ∀ q, q ≠ applyApiPfx P p1 →
          assocGet (wsStep P routes prompts provider st p1 m1).1 q = assocGet st q)
    ∧ (assocGet (wsLoop P routes prompts provider [] [(p1, m1), (p1, m2)]).1
          (applyApiPfx P p1)
        = some (exchangePair m1 (provider s1 m1 [])
            ++ exchangePair m2
                (provider s1 m2 (exchangePair m1 (provider s1 m1 [])))))
    ∧ (applyApiPfx P p1 ≠ applyApiPfx P p2 →
        assocGet (wsLoop P routes prompts provider [] [(p1, m1), (p2, m2)]).1
            (applyApiPfx P p1)
          = some (exchangePair m1 (provider s1 m1 []))
        ∧ assocGet (wsLoop P routes prompts provider [] [(p1, m1), (p2, m2)]).1
            (applyApiPfx P p2)
          = some (exchangePair m2 (provider s2 m2 []))) := by
  refine ⟨?_, ?_, ?_⟩
  · intro st
    constructor
    · simp [wsStep, hp1, hm1, hr1, hl1]
    · intro q hq
      simp [wsStep, hp1, hm1, hr1, hl1, assocGet_set_other _ _ _ _ hq]
  · simp [wsLoop, wsStep, hp1, hm1, hm2, hr1, hl1, assocGet, assocGet_set_self,
      assocSet, exchangePair]
  · intro hkey
    constructor
    · simp [wsLoop, wsStep, hp1, hm1, hp2, hm2, hr1, hr2, hl1, hl2, assocGet,
        assocGet_set_self, assocGet_set_other, assocSet, exchangePair, hkey, Ne.symm hkey]
    · simp [wsLoop, wsStep, hp1, hm1, hp2, hm2, hr1, hr2, hl1, hl2, assocGet,
        assocGet_set_self, assocGet_set_other, assocSet, exchangePair, hkey, Ne.symm hkey]

/-- Witness for C5: two messages on `/a` give the 4-entry History. -/
theorem ws_history_pairing_witness :
    assocGet (wsLoop "" [("/a", "a.md")] (fun f => some (.mapping [], f))
        (fun s m _ => s ++ m) [] [("/a", "hi"), ("/a", "yo")]).1 (applyApiPfx "" "/a")
      = some (exchangePair "hi" ("a.md" ++ "hi")
          ++ exchangePair "yo" ("a.md" ++ "yo")) :=
  (ws_history_pairing "" [("/a", "a.md")] (fun f => some (.mapping [], f))
      (fun s m _ => s ++ m) "/a" "hi" "/a" "yo" "a.md" "a.md" (.mapping []) (.mapping [])
      "a.md" "a.md" (by decide) (by decide) (by decide) (by decide)
      (by decide) (by decide) rfl rfl).2.1

/-- C5 counterexample: the claim says messages sent to two different paths
accumulate in two independent Histories that never share entries, but the
distinct path strings `"/a"` and `"a"` resolve to the same key, so after one
message on each the History addressed by the second path holds 4 entries
including the first message's user turn. -/
theorem ws_aliased_paths_share_history :
    ("/a" : String) ≠ "a"
    ∧ assocGet (wsLoop "" [("/a", "a.md")] (fun f => some (.mapping [], f))
        (fun _ m _ => "r:" ++ m) [] [("/a", "m1"), ("a", "m2")]).1 (applyApiPfx "" "a")
      = some [⟨"user", "m1"⟩, ⟨"assistant", "r:m1"⟩, ⟨"user", "m2"⟩, ⟨"assistant", "r:m2"⟩]
    ∧ (⟨"user", "m1"⟩ : Turn)
        ∈ [(⟨"user", "m1"⟩ : Turn), ⟨"assistant", "r:m1"⟩, ⟨"user", "m2"⟩, ⟨"assistant", "r:m2"⟩] :=
  ⟨by decide, by decide, by decide⟩

/-- `dropWhile` drops nothing when no element satisfies the predicate. -/
lemma dropWhile_of_all (p : Char → Bool) (l : List Char)
    (h : l.all (fun c => !p c) = true) : l.dropWhile p = l := by
  cases l with
  | nil => rfl
  | cons a t =>
    simp only [List.all_cons, Bool.and_eq_true, Bool.not_eq_true'] at h
    simp [List.dropWhile_cons, h.1]

/-- `dropWhile` preserves an `all` invariant. -/
lemma all_dropWhile (p q : Char → Bool) (l : List Char)
    (h : l.all q = true) : (l.dropWhile p).all q = true := by
  induction l with
  | nil => rfl
  | cons a t ih =>
    simp only [List.all_cons, Bool.and_eq_true] at h
    by_cases hp : p a = true <;> simp [List.dropWhile_cons, hp, h.1, h.2, ih h.2]

/-- `dropWhile p` preserves the existence of an element with `!p`. -/
lemma any_dropWhile (p : Char → Bool) (l : List Char)
    (h : l.any (fun c => !p c) = true) : (l.dropWhile p).any (fun c => !p c) = true := by
  induction l with
  | nil => simp at h
  | cons a t ih =>
    by_cases hp : p a = true
    · simp only [List.any_cons, hp, Bool.not_true, Bool.false_or] at h
      simp [List.dropWhile_cons, hp, ih h]
    · simp [List.dropWhile_cons, hp]

/-- The head of a `dropWhile` result does not satisfy the predicate. -/
lemma dropWhile_head_false (p : Char → Bool) :
    ∀ (l : List Char) (a : Char) (t : List Char), l.dropWhile p = a :: t → p a = false := by
  intro l
  induction l with
  | nil => intro a t h; exact absurd h (by simp)
  | cons b u ih =>
    intro a t h
    by_cases hb : p b = true
    · exact ih a t (by simpa [List.dropWhile_cons, hb] using h)
    · rw [List.dropWhile_cons, if_neg (by simpa using hb)] at h
      injection h with h1 h2
      rw [← h1]
      simpa using hb

/-- Stripping a string without whitespace is the identity. -/
lemma chStrip_of_all (l : List Char) (h : l.all (fun c => !pyIsSpace c) = true) :
    chStrip l = l := by
  unfold chStrip
  rw [dropWhile_of_all _ _ h, dropWhile_of_all _ _ (by simpa using h), List.reverse_reverse]


/-- The slash-stripping tail of `_normalize_route_path`, on a slash-prefixed
whitespace-free input with at least one non-slash character, produces a
normal-form path. -/
lemma normShape_rstrip (t : List Char)
    (h1 : ('/' :: t).all (fun c => !pyIsSpace c) = true)
    (h2 : ('/' :: t).any (fun c => c != '/') = true) :
    normShape (if (⟨'/' :: t⟩ : String) = "/" then (⟨'/' :: t⟩ : String)
      else pyRstripSlash ⟨'/' :: t⟩) = true := by
  have htne : t ≠ [] := by
    intro h; subst h; simp at h2
  rw [if_neg ?hslash]
  case hslash =>
    intro h
    have hd := congrArg String.data h
    simp only at hd
    injection hd with hd1 hd2
    exact htne hd2
  have hany : (('/' :: t).reverse).any (fun c => !(c == '/')) = true := by
    rw [List.any_reverse]; exact h2
  have huany := any_dropWhile (fun c => c == '/') _ hany
  cases hu : (('/' :: t).reverse).dropWhile (fun c => c == '/') with
  | nil => rw [hu] at huany; simp at huany
  | cons c0 u' =>
    have hc0 : (c0 == '/') = false := dropWhile_head_false (fun c => c == '/') _ _ _ hu
    have hrdata : pyRstripSlash (⟨'/' :: t⟩ : String) = ⟨(c0 :: u').reverse⟩ := by
      simp only [pyRstripSlash]
      rw [hu]
    rw [hrdata]
    have hall : ((c0 :: u').all (fun c => !pyIsSpace c)) = true := by
      have := all_dropWhile (fun c => c == '/') (fun c => !pyIsSpace c)
        (('/' :: t).reverse) (by rw [List.all_reverse]; exact h1)
      rwa [hu] at this
    have hpre : (c0 :: u').reverse <+: ('/' :: t) := by
      have hsuf : (c0 :: u') <:+ (('/' :: t).reverse) := hu ▸ List.dropWhile_suffix _
      have h' := List.reverse_prefix.mpr hsuf
      rwa [List.reverse_reverse] at h'
    simp only [normShape, Bool.and_eq_true]
    refine ⟨⟨?_, ?_⟩, ?_⟩
    · obtain ⟨w, hw⟩ := hpre
      cases hrev : (c0 :: u').reverse with
      | nil => exact absurd hrev (by simp)
      | cons a v =>
        rw [hrev, List.cons_append] at hw
        have ha : a = '/' := by injection hw with hw1 hw2
        subst ha
        simp [pyStartsWith, hrev, List.isPrefixOf]
    · rw [List.all_reverse]
      exact hall
    · rw [List.reverse_reverse]
      simp only [bne]
      rw [hc0]
      rfl

/-- Strings with equal character data are equal. -/
lemma string_eq_mk (s : String) (t : List Char) (h : s.data = t) : s = ⟨t⟩ := by
  cases s; simp_all

/-- `_normalize_route_path` sends every clean path to a normal-form path. -/
lemma normShape_of_clean (p : String) (hp : cleanPath p = true) :
    normShape (normRoutePath p) = true := by
  obtain ⟨l⟩ := p
  simp only [cleanPath, Bool.and_eq_true] at hp
  obtain ⟨h1, h2⟩ := hp
  have hne : l ≠ [] := by intro h; subst h; simp at h2
  have hne' : (⟨l⟩ : String) ≠ "" := by
    intro h
    have hd := congrArg String.data h
    exact hne (by simpa using hd)
  unfold normRoutePath pyStrip
  dsimp only
  rw [chStrip_of_all l h1]
  rw [if_neg hne']
  by_cases hsw : pyStartsWith "/" (⟨l⟩ : String) = true
  · obtain ⟨t, rfl⟩ : ∃ t, l = '/' :: t := by
      have hpre : ['/'] <+: l := List.isPrefixOf_iff_prefix.mp hsw
      obtain ⟨t, ht⟩ := hpre
      exact ⟨t, ht.symm⟩
    rw [if_pos hsw]
    exact normShape_rstrip t h1 h2
  · rw [if_neg hsw]
    have happ : ("/" ++ (⟨l⟩ : String)) = ⟨'/' :: l⟩ :=
      string_eq_mk _ _ (by rw [String.data_append]; rfl)
    rw [happ]
    exact normShape_rstrip l
      (by simp only [List.all_cons, h1, Bool.and_true]; rfl)
      (by simp [List.any_cons, h2])

/-- Normal-form paths are fixed points of `_normalize_route_path`. -/
lemma normRoutePath_fix (s : String) (hs : normShape s = true) : normRoutePath s = s := by
  simp only [normShape, Bool.and_eq_true] at hs
  obtain ⟨⟨hsw, hall⟩, hlast⟩ := hs
  obtain ⟨l⟩ := s
  obtain ⟨t, rfl⟩ : ∃ t, l = '/' :: t := by
    have hpre : ['/'] <+: l := List.isPrefixOf_iff_prefix.mp hsw
    obtain ⟨t, ht⟩ := hpre; exact ⟨t, ht.symm⟩
  have hne' : (⟨'/' :: t⟩ : String) ≠ "" := by
    intro h
    have hd := congrArg String.data h
    simp at hd
  unfold normRoutePath pyStrip
  dsimp only
  rw [chStrip_of_all _ hall, if_neg hne', if_pos hsw]
  by_cases hsl : (⟨'/' :: t⟩ : String) = "/"
  · rw [if_pos hsl]
  · rw [if_neg hsl]
    unfold pyRstripSlash
    dsimp only
    cases hrev : ('/' :: t).reverse with
    | nil => exact absurd hrev (by simp)
    | cons c0 v =>
      have hc0 : (c0 == '/') = false := by
        rw [hrev] at hlast
        simpa [bne] using hlast
      rw [List.dropWhile_cons, if_neg (by simp [hc0]), ← hrev, List.reverse_reverse]

/-- Concatenating two normal-form paths yields a normal-form path. -/
lemma normShape_append (P n : String) (hP : normShape P = true) (hn : normShape n = true) :
    normShape (P ++ n) = true := by
  simp only [normShape, Bool.and_eq_true] at hP hn ⊢
  obtain ⟨⟨hPsw, hPall⟩, hPlast⟩ := hP
  obtain ⟨⟨hnsw, hnall⟩, hnlast⟩ := hn
  refine ⟨⟨?_, ?_⟩, ?_⟩
  · obtain ⟨lP⟩ := P
    obtain ⟨tP, rfl⟩ : ∃ tP, lP = '/' :: tP := by
      have hpre : ['/'] <+: lP := List.isPrefixOf_iff_prefix.mp hPsw
      obtain ⟨tP, ht⟩ := hpre; exact ⟨tP, ht.symm⟩
    simp [pyStartsWith, String.data_append, List.isPrefixOf]
  · rw [String.data_append, List.all_append]
    simp [hPall, hnall]
  · rw [String.data_append, List.reverse_append]
    cases hrev : n.data.reverse with
    | nil =>
      have hnil : n.data = [] := by
        have := congrArg List.reverse hrev
        simpa using this
      obtain ⟨ln⟩ := n
      simp only at hnil
      subst hnil
      simp [pyStartsWith, List.isPrefixOf] at hnsw
    | cons c v =>
      rw [hrev] at hnlast
      simpa using hnlast

/-- A normal-form path is non-empty. -/
lemma normShape_ne_empty (s : String) (hs : normShape s = true) : s ≠ "" := by
  simp only [normShape, Bool.and_eq_true] at hs
  intro h
  subst h
  simpa [pyStartsWith, List.isPrefixOf] using hs.1.1

/-- A normal-form path starts with a slash. -/
lemma normShape_cons (s : String) (hs : normShape s = true) : ∃ t, s.data = '/' :: t := by
  simp only [normShape, Bool.and_eq_true] at hs
  have hpre : ['/'] <+: s.data := List.isPrefixOf_iff_prefix.mp hs.1.1
  obtain ⟨t, ht⟩ := hpre
  exact ⟨t, ht.symm⟩

/-- `_normalize_prefix` of a clean or whitespace-only prefix is either empty
or a normal-form path. -/
lemma normalizeApiPfx_shape (q : String) (hq : cleanPath q = true ∨ pyStrip q = "") :
    normalizeApiPfx q = "" ∨ normShape (normalizeApiPfx q) = true := by
  cases hq with
  | inr h => left; simp [normalizeApiPfx, h]
  | inl h =>
    have hstrip : pyStrip q = q := by
      obtain ⟨l⟩ := q
      simp only [cleanPath, Bool.and_eq_true] at h
      unfold pyStrip
      dsimp only
      rw [chStrip_of_all l h.1]
    have hne : q ≠ "" := by
      obtain ⟨l⟩ := q
      simp only [cleanPath, Bool.and_eq_true] at h
      intro hq0
      have hd := congrArg String.data hq0
      simp only at hd
      subst hd
      simp at h
    unfold normalizeApiPfx
    rw [hstrip, if_neg hne]
    by_cases hm : normRoutePath q = "/"
    · left; simp [hm]
    · right
      simp only [hm, if_false, ite_false]
      exact normShape_of_clean q h

/-- On clean paths `_apply_prefix` produces a normal-form path, is
idempotent, and is invariant under pre-normalizing its argument. -/
lemma applyApiPfx_spec (P p : String) (hP : P = "" ∨ normShape P = true)
    (hp : cleanPath p = true) :
    normShape (applyApiPfx P p) = true
    ∧ applyApiPfx P (applyApiPfx P p) = applyApiPfx P p
    ∧ applyApiPfx P (normRoutePath p) = applyApiPfx P p := by
  have hn : normShape (normRoutePath p) = true := normShape_of_clean p hp
  have hfix : normRoutePath (normRoutePath p) = normRoutePath p := normRoutePath_fix _ hn
  cases hP with
  | inl h =>
    subst h
    refine ⟨?_, ?_, ?_⟩ <;> simp [applyApiPfx, hfix, hn]
  | inr hPs =>
    have hPne : P ≠ "" := normShape_ne_empty P hPs
    by_cases hb : (normRoutePath p = P || pyStartsWith (P ++ "/") (normRoutePath p)) = true
    · have h1 : applyApiPfx P p = normRoutePath p := by
        simp [applyApiPfx, hPne, hb]
      refine ⟨h1 ▸ hn, ?_, ?_⟩
      · rw [h1]; simp [applyApiPfx, hPne, hfix, hb]
      · simp [applyApiPfx, hPne, hfix, hb, h1]
    · have h1 : applyApiPfx P p = P ++ normRoutePath p := by
        simp only [applyApiPfx, hPne, if_false, ite_false]
        rw [if_neg (by simpa using hb)]
      have hshape : normShape (P ++ normRoutePath p) = true :=
        normShape_append _ _ hPs hn
      have hfix2 : normRoutePath (P ++ normRoutePath p) = P ++ normRoutePath p :=
        normRoutePath_fix _ hshape
      have hb2 : (P ++ normRoutePath p = P
          || pyStartsWith (P ++ "/") (P ++ normRoutePath p)) = true := by
        rw [Bool.or_eq_true]
        right
        rw [show pyStartsWith (P ++ "/") (P ++ normRoutePath p)
            = ((P ++ "/").data.isPrefixOf (P ++ normRoutePath p).data) from rfl]
        rw [List.isPrefixOf_iff_prefix, String.data_append, String.data_append]
        rw [List.prefix_append_right_inj]
        obtain ⟨t, ht⟩ := normShape_cons _ hn
        rw [ht]
        exact ⟨t, rfl⟩
      refine ⟨h1 ▸ hshape, ?_, ?_⟩
      · rw [h1]; simp [applyApiPfx, hPne, hfix2, hb2]
      · simp only [applyApiPfx, hPne, if_false, ite_false]
        rw [hfix]

/-- C10 (amended): on clean paths — paths containing no whitespace and at
least one non-slash character, the prefix likewise clean or blank —
`_normalize_route_path` and `_apply_prefix` are idempotent, every stored
route-table key `routeKey P p = _apply_prefix(_normalize_route_path(p))` is
a fixed point of both, and the key equals `_apply_prefix(p)` directly, so a
WebSocket lookup through `_apply_prefix` resolves an already-prefixed path
to the registered key.  The amendment restricts to clean paths: `"//"`
normalizes to `""` (re-normalizing to `"/"`), and with prefix `"/api"` the
path `"/"` prefixes to `"/api/"` but re-applying gives `"/api"`. -/
theorem normalize_idempotent_on_clean_paths (p q : String)
    (hp : cleanPath p = true) (hq : cleanPath q = true ∨ pyStrip q = "") :
    normRoutePath (normRoutePath p) = normRoutePath p
    ∧ applyApiPfx (normalizeApiPfx q) (applyApiPfx (normalizeApiPfx q) p)
        = applyApiPfx (normalizeApiPfx q) p
    ∧ routeKey (normalizeApiPfx q) p = applyApiPfx (normalizeApiPfx q) p
    ∧ normRoutePath (routeKey (normalizeApiPfx q) p) = routeKey (normalizeApiPfx q) p
    ∧ applyApiPfx (normalizeApiPfx q) (routeKey (normalizeApiPfx q) p)
        = routeKey (normalizeApiPfx q) p := by
  have hP := normalizeApiPfx_shape q hq
  have hspec := applyApiPfx_spec (normalizeApiPfx q) p hP hp
  have hfix := normRoutePath_fix _ (normShape_of_clean p hp)
  have hkey : routeKey (normalizeApiPfx q) p = applyApiPfx (normalizeApiPfx q) p :=
    hspec.2.2
  refine ⟨hfix, hspec.2.1, hkey, ?_, ?_⟩
  · rw [hkey]
    exact normRoutePath_fix _ hspec.1
  · rw [hkey, hspec.2.1]

/-- Witness for C10 on the clean path `"a"` with prefix `"/api"`. -/
theorem normalize_idempotent_on_clean_paths_witness :
    normRoutePath (normRoutePath "a") = normRoutePath "a"
    ∧ applyApiPfx (normalizeApiPfx "/api") (applyApiPfx (normalizeApiPfx "/api") "a")
        = applyApiPfx (normalizeApiPfx "/api") "a"
    ∧ routeKey (normalizeApiPfx "/api") "a" = applyApiPfx (normalizeApiPfx "/api") "a"
    ∧ normRoutePath (routeKey (normalizeApiPfx "/api") "a")
        = routeKey (normalizeApiPfx "/api") "a"
    ∧ applyApiPfx (normalizeApiPfx "/api") (routeKey (normalizeApiPfx "/api") "a")
        = routeKey (normalizeApiPfx "/api") "a" :=
  normalize_idempotent_on_clean_paths "a" "/api" (by decide) (Or.inl (by decide))

/-- C10 counterexample: `_normalize_route_path` is not idempotent on `"//"`
(it returns `""`, which re-normalizes to `"/"`), and `_apply_prefix` with
the normalized prefix `"/api"` is not idempotent on `"/"` (it returns
`"/api/"`, which re-applies to `"/api"`). -/
theorem normalize_path_not_idempotent :
    normRoutePath "//" = ""
    ∧ normRoutePath (normRoutePath "//") = "/"
    ∧ ("" : String) ≠ "/"
    ∧ normalizeApiPfx "/api" = "/api"
    ∧ applyApiPfx "/api" "/" = "/api/"
    ∧ applyApiPfx "/api" (applyApiPfx "/api" "/") = "/api"
    ∧ ("/api/" : String) ≠ "/api" :=
  ⟨by decide, by decide, by decide, by decide, by decide, by decide, by decide⟩

end LeanpromptSpec
